import Mathlib

/-!
Shallow embedding of the `chroma-embedded` repository:
`src/check_deps.py` (dependency checker) and `src/embedding_functions.py`
(embedding-function factory).  Effects are made explicit: the outcome of
`importlib.import_module`, of `pytesseract.get_tesseract_version` and of
each `subprocess.run` on a candidate bash path is supplied by an
environment record, and `print` calls are collected into a log of the
printed strings (one entry per `print` call, without the trailing
newline that `print` appends).
-/

namespace ChromaEmbedded

/-- A Python exception value, as far as the two modules distinguish them:
`check_package` catches exactly `ImportError`, the factory raises
`ValueError`, and anything else is some other `Exception` carrying its
message.  (`BaseException`s such as `KeyboardInterrupt` are outside the
model.) -/
inductive PyExc where
  | importError (msg : String)
  | valueError (msg : String)
  | other (msg : String)
deriving DecidableEq, Repr

/-- The message `str(e)` printed for an exception. -/
def PyExc.msg : PyExc → String
  | .importError m => m
  | .valueError m => m
  | .other m => m

/-- Outcome of `subprocess.run([bash_path, "--version"], ..., timeout=5)`
on one candidate path: the two exception kinds the code catches, or a
completed process with its return code and captured stdout. -/
inductive BashOutcome where
  | timeout
  | notFound
  | completed (returncode : Int) (stdout : String)
deriving DecidableEq, Repr

/-- The runtime environment `check_deps.py` probes.
`importResult p = none` means `import_module p` succeeds; `some e` means
it raises `e`.  `tesseractVersion` is the outcome of
`pytesseract.get_tesseract_version()` (only consulted after a
successful import of `pytesseract`).  `bashOutcome` gives the outcome for
each candidate bash path. -/
structure Env where
  importResult : String → Option PyExc
  tesseractVersion : Except PyExc String
  bashOutcome : String → BashOutcome

/-- Function `check_package(package_name, description)` from `check_deps.py`:
`import_module` inside `try/except ImportError`.  Only `ImportError` is
caught; any other exception propagates (`Except.error`).  Returns the
printed lines and the boolean result. -/
def check_package (env : Env) (package_name description : String) :
    Except PyExc (List String × Bool) :=
  match env.importResult package_name with
  | none => .ok (["✓ " ++ package_name ++ " - " ++ description], true)
  | some (.importError _) => .ok (["✗ " ++ package_name ++ " - " ++ description], false)
  | some e => .error e

/-- Function `check_tesseract()` from `check_deps.py`: re-imports `pytesseract`
and queries the binary version inside `try/except Exception`, so nothing
propagates.  Returns the printed lines and the boolean result. -/
def check_tesseract (env : Env) : List String × Bool :=
  match env.importResult "pytesseract" with
  | some e => (["✗ tesseract binary - " ++ e.msg], false)
  | none =>
    match env.tesseractVersion with
    | .error e => (["✗ tesseract binary - " ++ e.msg], false)
    | .ok v => (["✓ tesseract binary - version " ++ v], true)

/-- Digit run to a number, as `int()` on the captured digit group. -/
def digitsToNat (ds : List Char) : Nat :=
  ds.foldl (fun a c => a * 10 + (c.toNat - 48)) 0

/-- Does the regex `version (\d+)\.(\d+)` match starting at the head of
`cs`?  The literal `"version "` followed by a (greedy, nonempty) digit
run, a dot, and another nonempty digit run; greediness agrees with
`takeWhile` because a digit run cannot contain the following dot. -/
def matchVersionAt (cs : List Char) : Option (Nat × Nat) :=
  if ("version ".data).isPrefixOf cs then
    let rest := cs.drop 8
    let d1 := rest.takeWhile Char.isDigit
    let r1 := rest.dropWhile Char.isDigit
    if d1.isEmpty then none
    else
      match r1 with
      | '.' :: r2 =>
        let d2 := r2.takeWhile Char.isDigit
        if d2.isEmpty then none else some (digitsToNat d1, digitsToNat d2)
      | _ => none
  else none

/-- Search `re.search` with pattern `version (\d+)\.(\d+)`: leftmost match, scanning
start positions left to right. -/
def searchVersion : List Char → Option (Nat × Nat)
  | [] => none
  | c :: cs =>
    match matchVersionAt (c :: cs) with
    | some r => some r
    | none => searchVersion cs

/-- First line `result.stdout.split(newline)[0]`: the characters before the first
newline. -/
def firstLine (s : String) : List Char :=
  s.data.takeWhile (fun c => c ≠ '\n')

/-- The version test `major > 4 or (major == 4 and minor >= 3)`. -/
def versionAdequate (major minor : Nat) : Bool :=
  decide (major > 4 ∨ (major = 4 ∧ minor ≥ 3))

/-- The candidate interpreter paths, in the order the code probes them. -/
def bash_paths : List String :=
  ["/opt/homebrew/bin/bash", "/usr/local/bin/bash", "/bin/bash"]

/-- The `for bash_path in bash_paths:` loop of `check_bash_version`.
A `TimeoutExpired`/`FileNotFoundError`, a nonzero return code, or an
unparsable first line all silently move on to the next candidate; an
adequate version returns `True` immediately; an inadequate version
returns `False` immediately when the candidate is `/bin/bash` and is
otherwise skipped.  Falling off the loop yields the
`(False, "/bin/bash", "unknown")` fallback.  Result: printed lines,
then `(ok, bash_path, version_string)`. -/
def bashLoop (bash : String → BashOutcome) :
    List String → List String × Bool × String × String
  | [] => ([], false, "/bin/bash", "unknown")
  | p :: rest =>
    match bash p with
    | .timeout => bashLoop bash rest
    | .notFound => bashLoop bash rest
    | .completed rc out =>
      if rc = 0 then
        match searchVersion (firstLine out) with
        | some (major, minor) =>
          if versionAdequate major minor then
            (["✓ Bash " ++ toString major ++ "." ++ toString minor ++ " at " ++ p ++
                " - Supports parallel processing"],
              true, p, toString major ++ "." ++ toString minor)
          else if p = "/bin/bash" then
            (["✗ Bash " ++ toString major ++ "." ++ toString minor ++ " at " ++ p ++
                " - Too old for parallel processing (need 4.3+)"],
              false, p, toString major ++ "." ++ toString minor)
          else bashLoop bash rest
        | none => bashLoop bash rest
      else bashLoop bash rest

/-- Function `check_bash_version()` from `check_deps.py`.  The outer
`try/except Exception` (returning `(False, "/bin/bash", "error")`) is
unreachable in this model because the loop body only raises the two
exception kinds that the inner `except` already catches. -/
def check_bash_version (bash : String → BashOutcome) :
    List String × Bool × String × String :=
  bashLoop bash bash_paths

/-- The `core_deps` list of `main`. -/
def core_deps : List (String × String) :=
  [("chromadb", "ChromaDB vector database"),
   ("fitz", "PyMuPDF for PDF processing"),
   ("PIL", "Pillow for image processing"),
   ("packaging", "Version checking utilities")]

/-- Evaluation of `all(check_package(pkg, desc) for pkg, desc in core_deps)`:
Python's `all` over a generator short-circuits, so once one check
returns `False` the remaining packages are not checked. -/
def allCheck (env : Env) : List (String × String) → Except PyExc (List String × Bool)
  | [] => .ok ([], true)
  | (pkg, desc) :: rest =>
    match check_package env pkg desc with
    | .error e => .error e
    | .ok (l1, true) =>
      match allCheck env rest with
      | .error e => .error e
      | .ok (l2, b) => .ok (l1 ++ l2, b)
    | .ok (l1, false) => .ok (l1, false)

/-- Block of `main` for source-code processing: when `astchunk` is
there, check `tree_sitter` and report readiness, else print the
install hint.  Hoisted out of `main` for the proofs. -/
def astSection (env : Env) (astchunk_ok : Bool) : Except PyExc (List String) :=
  if astchunk_ok then do
    let (lts, _) ← check_package env "tree_sitter" "Multi-language parsing support"
    pure (lts ++ ["  → AST-aware chunking ready for source code!"])
  else pure ["  → Install with: pip install ."]

/-- Block of `main` for the optional EasyOCR engine: when `easyocr` is
there, check `numpy` and report readiness, else print the install
hint.  Hoisted out of `main` for the proofs. -/
def easyocrSection (env : Env) (easyocr_ok : Bool) : Except PyExc (List String) :=
  if easyocr_ok then do
    let (ln, _) ← check_package env "numpy" "NumPy (required by EasyOCR)"
    pure (ln ++ ["  → EasyOCR is ready to use!"])
  else pure ["  → Install with: pip install .[easyocr]"]

/-- Function `main()` from `check_deps.py`, printing into a log.  The value is
`(printed lines, exit code)`; an uncaught exception (a non-`ImportError`
raised by one of the imports) is `Except.error`, in which case the
process dies with a traceback instead of returning an exit code. -/
def main (env : Env) : Except PyExc (List String × Nat) := do
  let bashRes := check_bash_version env.bashOutcome
  let bashLog := bashRes.1
  let bash_ok := bashRes.2.1
  let bash_version := bashRes.2.2.2
  let (lAst, astchunk_ok) ← check_package env "astchunk" "AST-aware source code chunking"
  let lAst2 ← astSection env astchunk_ok
  let (lMis, mistune_ok) ← check_package env "mistune" "Markdown parsing for heading-aware chunking"
  let lMis2 := if mistune_ok then ["  → Heading-aware chunking ready for markdown!"]
    else ["  → Install with: pip install ."]
  let (lCore, core_ok) ← allCheck env core_deps
  let (lPyt, pytesseract_ok) ← check_package env "pytesseract" "PyTesseract Python wrapper"
  let ocrRes :=
    if pytesseract_ok then
      match check_tesseract env with
      | (lt, true) => (lt ++ ["  → Tesseract OCR is ready to use!"], true)
      | (lt, false) =>
        (lt ++ ["  → Install tesseract binary:",
                "    macOS: brew install tesseract",
                "    Ubuntu/Debian: sudo apt-get install tesseract-ocr",
                "    CentOS/RHEL: sudo yum install tesseract"], false)
    else (["  → Install with: pip install . (already included)"], false)
  let lOcr := ocrRes.1
  let tesseract_binary_ok := ocrRes.2
  let (lEasy, easyocr_ok) ← check_package env "easyocr" "EasyOCR engine (pure Python)"
  let lEasy2 ← easyocrSection env easyocr_ok
  let header :=
    ["🔍 Checking ChromaDB Enhanced Dependencies\n", "System Dependencies:"] ++ bashLog
    ++ ["\nSource Code Processing:"] ++ lAst ++ lAst2
    ++ ["\nMarkdown Processing:"] ++ lMis ++ lMis2
    ++ ["\nCore Dependencies:"] ++ lCore
    ++ ["\nOCR Dependencies:"] ++ lPyt ++ lOcr
    ++ ["\nOptional EasyOCR:"] ++ lEasy ++ lEasy2
    ++ ["\n" ++ String.mk (List.replicate 50 (Char.ofNat 61)), "📋 SUMMARY:"]  -- "=" * 50
  if core_ok = false then
    pure (header ++ ["❌ Core dependencies missing - run: pip install ."], 1)
  else
    pure (header
      ++ (if bash_ok = false then
            ["⚠️  Bash version too old for parallel processing",
             "   Current: Bash " ++ bash_version,
             "   Required: Bash 4.3+ for efficient parallel uploads",
             "   Install: brew install bash (macOS)",
             "   Note: Script will still work but less efficiently"]
          else ["✅ Bash " ++ bash_version ++ " - Parallel processing ready"])
      ++ (if astchunk_ok then ["✅ ASTChunk ready - Source code processing available"]
          else ["⚠️  ASTChunk missing - Source code will use basic chunking",
                "   Install with: pip install ."])
      ++ (if mistune_ok then ["✅ Mistune ready - Markdown heading-aware chunking available"]
          else ["⚠️  Mistune missing - Markdown will use basic chunking",
                "   Install with: pip install ."])
      ++ (if pytesseract_ok && tesseract_binary_ok then
            ["✅ Tesseract ready - OCR available (default engine)",
             "   Default usage: ./upload.sh -i /path/to/pdfs --store pdf"]
          else if easyocr_ok then
            ["✅ EasyOCR available - OCR will work", "   Use with: --ocr-engine easyocr"]
          else
            ["⚠️  No OCR engine available",
             "   Install Tesseract: brew install tesseract (macOS)",
             "   Or install EasyOCR: pip install .[easyocr]",
             "   Or disable OCR: --disable-ocr"])
      ++ ["\n🚀 Ready to process multiple content types!",
          "   PDFs: ./upload.sh -i /path/to/pdfs --store pdf -e stella",
          "   Code: ./upload.sh -i /path/to/source --store source-code -e stella",
          "   Docs: ./upload.sh -i /path/to/docs --store documentation -e stella"], 0)

/-! Embedding of `embedding_functions.py`. -/

/-- A constructed `SentenceTransformer(model_name, trust_remote_code=...)`
value: the configuration the wrapper classes hold in `self.model`. -/
structure SentenceTransformer where
  modelName : String
  trustRemoteCode : Bool
deriving DecidableEq, Repr

/-- The `sentence_transformers` library as the two modules use it:
whether loading a given (model id, trust flag) pair succeeds or raises,
and what `model.encode(input)` (after numpy's `.tolist()`, modelled as
the identity) returns for a loaded model on a batch of documents. -/
structure STLib where
  loadResult : String → Bool → Except PyExc Unit
  encode : SentenceTransformer → List String → List (List Float)

/-- Constructor `SentenceTransformer(name, trust_remote_code=trust)`: the
constructor performs the model load and propagates its failure. -/
def SentenceTransformer.new (lib : STLib) (name : String) (trust : Bool) :
    Except PyExc SentenceTransformer :=
  match lib.loadResult name trust with
  | .error e => .error e
  | .ok _ => .ok ⟨name, trust⟩

/-- Class `StellaEmbeddingFunction`. -/
structure StellaEmbeddingFunction where
  model : SentenceTransformer
deriving DecidableEq, Repr

/-- Method `StellaEmbeddingFunction.__init__`. -/
def StellaEmbeddingFunction.init (lib : STLib) : Except PyExc StellaEmbeddingFunction :=
  (SentenceTransformer.new lib "dunzhang/stella_en_400M_v5" true).map StellaEmbeddingFunction.mk

/-- Method `StellaEmbeddingFunction.__call__`: `self.model.encode(input).tolist()`. -/
def StellaEmbeddingFunction.call (lib : STLib) (f : StellaEmbeddingFunction)
    (input : List String) : List (List Float) :=
  lib.encode f.model input

/-- Class `ModernBERTEmbeddingFunction`. -/
structure ModernBERTEmbeddingFunction where
  model : SentenceTransformer
deriving DecidableEq, Repr

/-- Method `ModernBERTEmbeddingFunction.__init__`. -/
def ModernBERTEmbeddingFunction.init (lib : STLib) : Except PyExc ModernBERTEmbeddingFunction :=
  (SentenceTransformer.new lib "answerdotai/ModernBERT-large" true).map ModernBERTEmbeddingFunction.mk

/-- Method `ModernBERTEmbeddingFunction.__call__`. -/
def ModernBERTEmbeddingFunction.call (lib : STLib) (f : ModernBERTEmbeddingFunction)
    (input : List String) : List (List Float) :=
  lib.encode f.model input

/-- Class `BGEEmbeddingFunction`; its constructor passes no
`trust_remote_code`, whose library default is `False`. -/
structure BGEEmbeddingFunction where
  model : SentenceTransformer
deriving DecidableEq, Repr

/-- Method `BGEEmbeddingFunction.__init__`. -/
def BGEEmbeddingFunction.init (lib : STLib) : Except PyExc BGEEmbeddingFunction :=
  (SentenceTransformer.new lib "BAAI/bge-large-en-v1.5" false).map BGEEmbeddingFunction.mk

/-- Method `BGEEmbeddingFunction.__call__`. -/
def BGEEmbeddingFunction.call (lib : STLib) (f : BGEEmbeddingFunction)
    (input : List String) : List (List Float) :=
  lib.encode f.model input

/-- The possible results of the factory: an instance of one of the three
wrapper classes. -/
inductive EmbeddingFunctionObj where
  | stellaFn (f : StellaEmbeddingFunction)
  | modernbertFn (f : ModernBERTEmbeddingFunction)
  | bgeFn (f : BGEEmbeddingFunction)
deriving DecidableEq, Repr

/-- Invoking the returned object on a batch of documents. -/
def EmbeddingFunctionObj.call (lib : STLib) : EmbeddingFunctionObj → List String → List (List Float)
  | .stellaFn f, input => f.call lib input
  | .modernbertFn f, input => f.call lib input
  | .bgeFn f, input => f.call lib input

/-- Message of the `ValueError` for an unknown model name:
`f"Unknown embedding model: \x7bmodel_name\x7d. Available: \x7blist(model_map.keys())\x7d"`,
where Python renders the key list with ASCII apostrophes (written `\x27`
below) around each name, in dictionary insertion order. -/
def unknownModelMsg (model_name : String) : String :=
  "Unknown embedding model: " ++ model_name ++
    ". Available: [\x27stella\x27, \x27modernbert\x27, \x27bge-large\x27]"

/-- Factory `get_embedding_function(model_name)`: dictionary lookup in
`model_map` followed by `model_map[model_name]()`; an unknown name
raises `ValueError` with the unknown value and
`list(model_map.keys())` rendered in Python list syntax, in insertion
order. -/
def get_embedding_function (lib : STLib) (model_name : String) :
    Except PyExc EmbeddingFunctionObj :=
  if model_name = "stella" then
    (StellaEmbeddingFunction.init lib).map EmbeddingFunctionObj.stellaFn
  else if model_name = "modernbert" then
    (ModernBERTEmbeddingFunction.init lib).map EmbeddingFunctionObj.modernbertFn
  else if model_name = "bge-large" then
    (BGEEmbeddingFunction.init lib).map EmbeddingFunctionObj.bgeFn
  else
    .error (.valueError (unknownModelMsg model_name))

/-! Auxiliary notions used to state the claims, and concrete environments
used to exercise the definitions. -/

/-- Boolean prefix test on character lists (pattern starts at the head). -/
def leadsWith : List Char → List Char → Bool
  | [], _ => true
  | _ :: _, [] => false
  | a :: as, b :: bs => a == b && leadsWith as bs

/-- Boolean substring test on character lists: `sub` occurs contiguously
in the second argument (Python's `in` on strings). -/
def containsSeq (sub : List Char) : List Char → Bool
  | [] => sub.isEmpty
  | c :: cs => leadsWith sub (c :: cs) || containsSeq sub cs

/-- The log a normally-returning `main` prints, extracted from its value. -/
def mainLog (env : Env) : List String :=
  ((main env).toOption.getD ([], 0)).1

/-- Bash probe where no candidate interpreter exists. -/
def bashMissing : String → BashOutcome := fun _ => .notFound

/-- Bash probe where every candidate query times out. -/
def bashAllTimeout : String → BashOutcome := fun _ => .timeout

/-- Bash probe: only `/bin/bash` exists, an old 4.2.46 build. -/
def bash42 : String → BashOutcome := fun p =>
  if p = "/bin/bash" then
    .completed 0 "GNU bash, version 4.2.46(2)-release (x86_64-redhat-linux-gnu)\nCopyright (C) 2011 Free Software Foundation, Inc."
  else .notFound

/-- Bash probe: only `/bin/bash` exists, a 5.1.8 build. -/
def bash51 : String → BashOutcome := fun p =>
  if p = "/bin/bash" then
    .completed 0 "GNU bash, version 5.1.8(1)-release (x86_64-apple-darwin20.3.0)"
  else .notFound

/-- Bash probe: every candidate completes successfully but reports an
output line the version regex does not match. -/
def bashNoParse : String → BashOutcome := fun _ => .completed 0 "no version here"

/-- Environment with every package importable and no usable shell. -/
def envAllGood : Env := ⟨fun _ => none, .ok "5.3.0", bashMissing⟩

/-- Environment with every package importable and an old 4.2 shell. -/
def envOldBash : Env := ⟨fun _ => none, .ok "5.3.0", bash42⟩

/-- Environment where importing `fitz` raises `ImportError` and
everything else is importable. -/
def envNoFitz : Env :=
  ⟨fun p => if p = "fitz" then some (.importError "No module named fitz") else none,
   .ok "5.3.0", bashMissing⟩

/-- Environment where importing any package raises a `RuntimeError`
(a broken package whose top-level code fails: not an `ImportError`). -/
def envRaising : Env :=
  ⟨fun _ => some (.other "RuntimeError: boom"), .ok "5.3.0", bashMissing⟩

/-- Model library where every load succeeds and `encode` embeds each
document as a fixed two-dimensional vector (so batch length is
preserved). -/
def stlibOK : STLib :=
  ⟨fun _ _ => .ok (), fun _ input => input.map (fun _ => [(0 : Float), 1])⟩

/-- Model library where every model load fails with a hub error. -/
def stlibFail : STLib :=
  ⟨fun _ _ => .error (.other "HTTPError: 404"), fun _ _ => []⟩

/-! Helper lemmas shared by several of the claim theorems. -/

/-- Inversion for a successful `Except` bind. -/
theorem bind_ok {ε α β : Type} {m : Except ε α} {f : α → Except ε β} {r : β}
    (h : m >>= f = Except.ok r) : ∃ a, m = Except.ok a ∧ f a = Except.ok r := by
  cases m with
  | error e => exact Except.noConfusion h
  | ok a => exact ⟨a, rfl, h⟩

/-- When `check_package` returns normally, its boolean is exactly
whether the import succeeded. -/
theorem check_package_ok_iff (env : Env) (n d : String) (l : List String) (b : Bool)
    (h : check_package env n d = Except.ok (l, b)) :
    b = true ↔ env.importResult n = none := by
  unfold check_package at h
  cases he : env.importResult n with
  | none => rw [he] at h; cases h; simp
  | some e =>
    cases e with
    | importError m => rw [he] at h; cases h; simp
    | valueError m => rw [he] at h; exact Except.noConfusion h
    | other m => rw [he] at h; exact Except.noConfusion h

/-- When the short-circuiting `all(...)` returns normally, its boolean
says that every listed package imports successfully. -/
theorem allCheck_ok_iff (env : Env) :
    ∀ (ps : List (String × String)) (l : List String) (b : Bool),
      allCheck env ps = Except.ok (l, b) →
      (b = true ↔ ∀ q ∈ ps, env.importResult q.1 = none) := by
  intro ps
  induction ps with
  | nil =>
    intro l b h
    cases h
    simp
  | cons q rest ih =>
    intro l b h
    obtain ⟨q1, q2⟩ := q
    unfold allCheck at h
    cases hcp : check_package env q1 q2 with
    | error e => rw [hcp] at h; exact Except.noConfusion h
    | ok pr =>
      obtain ⟨l1, ok1⟩ := pr
      rw [hcp] at h
      have h1 := check_package_ok_iff env q1 q2 l1 ok1 hcp
      cases ok1 with
      | true =>
        cases hrest : allCheck env rest with
        | error e => rw [hrest] at h; exact Except.noConfusion h
        | ok pr2 =>
          obtain ⟨l2, b2⟩ := pr2
          rw [hrest] at h
          cases h
          rw [ih _ _ hrest]
          simp [List.forall_mem_cons, h1.mp rfl]
      | false =>
        cases h
        have hne : env.importResult q1 ≠ none := fun hn => absurd (h1.mpr hn) (by simp)
        simp only [List.forall_mem_cons]
        constructor
        · intro hf; exact absurd hf (by simp)
        · rintro ⟨hq, -⟩; exact absurd hq hne

/-- A normally-returning `main` computes its exit code from the
short-circuited core-dependency scan, and from nothing else. -/
theorem main_ok_code (env : Env) (log : List String) (code : Nat)
    (h : main env = Except.ok (log, code)) :
    ∃ l b, allCheck env core_deps = Except.ok (l, b) ∧ code = if b then 0 else 1 := by
  unfold main at h
  obtain ⟨⟨lAst, astOk⟩, hA, h⟩ := bind_ok h
  obtain ⟨lAst2, hA2, h⟩ := bind_ok h
  obtain ⟨⟨lMis, misOk⟩, hM, h⟩ := bind_ok h
  obtain ⟨⟨lCore, coreOk⟩, hC, h⟩ := bind_ok h
  obtain ⟨⟨lPyt, pytOk⟩, hP, h⟩ := bind_ok h
  obtain ⟨⟨lEasy, easyOk⟩, hE, h⟩ := bind_ok h
  obtain ⟨lEasy2, hE2, h⟩ := bind_ok h
  refine ⟨lCore, coreOk, hC, ?_⟩
  cases coreOk with
  | false => exact (congrArg Prod.snd (Except.ok.inj h)).symm
  | true => exact (congrArg Prod.snd (Except.ok.inj h)).symm

/-- C1: the dependency checker's `main` returns exit code 0 if and only
if all four core package checks (`chromadb`, `fitz`, `PIL`, `packaging`)
succeed, independent of the optional-dependency checks (OCR, AST
chunking, markdown chunking, shell version); otherwise it returns 1.
The hypothesis restricts attention to runs that return an exit code at
all (a non-`ImportError` raised by a probe kills the process with a
traceback instead of returning). -/
theorem main_exit_code_iff_core (env : Env) (log : List String) (code : Nat)
    (h : main env = Except.ok (log, code)) :
    code = if env.importResult "chromadb" = none ∧ env.importResult "fitz" = none ∧
              env.importResult "PIL" = none ∧ env.importResult "packaging" = none
           then 0 else 1 := by
  obtain ⟨l, b, hAll, rfl⟩ := main_ok_code env log code h
  have hb := allCheck_ok_iff env core_deps l b hAll
  have hb' : b = true ↔ (env.importResult "chromadb" = none ∧ env.importResult "fitz" = none ∧
      env.importResult "PIL" = none ∧ env.importResult "packaging" = none) := by
    rw [hb]; simp [core_deps]
  cases b with
  | true => simp [hb'.mp rfl]
  | false =>
    have hnot : ¬(env.importResult "chromadb" = none ∧ env.importResult "fitz" = none ∧
        env.importResult "PIL" = none ∧ env.importResult "packaging" = none) :=
      fun hP => absurd (hb'.mpr hP) (by simp)
    simp [hnot]

/-- C1 witness: in an environment where `fitz` fails to import and
everything else is fine, `main` returns exit code 1, matching the
formula. -/
theorem main_exit_code_iff_core_witness :
    main envNoFitz = Except.ok (mainLog envNoFitz, 1) ∧
    (1 : Nat) = if envNoFitz.importResult "chromadb" = none ∧
        envNoFitz.importResult "fitz" = none ∧ envNoFitz.importResult "PIL" = none ∧
        envNoFitz.importResult "packaging" = none then 0 else 1 :=
  ⟨rfl, main_exit_code_iff_core envNoFitz (mainLog envNoFitz) 1 rfl⟩

/-- C10: two runs of `main` that agree on the outcomes of the four core
package imports produce the same exit code, whatever their shell-version
probes (and the other optional probes) do: an old or missing shell
changes only the printed report. -/
theorem main_exit_code_independent_of_bash (env1 env2 : Env)
    (log1 log2 : List String) (c1 c2 : Nat)
    (hagree : ∀ p ∈ ["chromadb", "fitz", "PIL", "packaging"],
      env1.importResult p = env2.importResult p)
    (h1 : main env1 = Except.ok (log1, c1)) (h2 : main env2 = Except.ok (log2, c2)) :
    c1 = c2 := by
  obtain ⟨l1, b1, hA1, rfl⟩ := main_ok_code env1 log1 c1 h1
  obtain ⟨l2, b2, hA2, rfl⟩ := main_ok_code env2 log2 c2 h2
  have a1 := hagree "chromadb" (by simp)
  have a2 := hagree "fitz" (by simp)
  have a3 := hagree "PIL" (by simp)
  have a4 := hagree "packaging" (by simp)
  have hb1 : b1 = true ↔ (env2.importResult "chromadb" = none ∧
      env2.importResult "fitz" = none ∧ env2.importResult "PIL" = none ∧
      env2.importResult "packaging" = none) := by
    rw [allCheck_ok_iff env1 core_deps l1 b1 hA1]
    simp [core_deps, a1, a2, a3, a4]
  have hb2 : b2 = true ↔ (env2.importResult "chromadb" = none ∧
      env2.importResult "fitz" = none ∧ env2.importResult "PIL" = none ∧
      env2.importResult "packaging" = none) := by
    rw [allCheck_ok_iff env2 core_deps l2 b2 hA2]
    simp [core_deps]
  have hb : b1 = b2 := by
    cases hx1 : b1 with
    | true =>
      cases hx2 : b2 with
      | true => rfl
      | false =>
        rw [hx1] at hb1; rw [hx2] at hb2
        exact absurd (hb2.mpr (hb1.mp rfl)) (by simp)
    | false =>
      cases hx2 : b2 with
      | true =>
        rw [hx1] at hb1; rw [hx2] at hb2
        exact absurd (hb1.mpr (hb2.mp rfl)) (by simp)
      | false => rfl
  rw [hb]

/-- C10 witness: a run with no queryable shell and a run with an old 4.2
shell, both with all packages importable, return the same exit code 0. -/
theorem main_exit_code_independent_of_bash_witness :
    main envAllGood = Except.ok (mainLog envAllGood, 0) ∧
    main envOldBash = Except.ok (mainLog envOldBash, 0) ∧ (0 : Nat) = 0 :=
  ⟨rfl, rfl,
    main_exit_code_independent_of_bash envAllGood envOldBash
      (mainLog envAllGood) (mainLog envOldBash) 0 0 (fun _ _ => rfl) rfl rfl⟩

/-- A candidate whose query raises `TimeoutExpired` or
`FileNotFoundError` is skipped: the loop result is that of the remaining
candidates, and nothing is printed for it. -/
theorem bashLoop_skip (bash : String → BashOutcome) (p : String) (rest : List String)
    (h : bash p = BashOutcome.timeout ∨ bash p = BashOutcome.notFound) :
    bashLoop bash (p :: rest) = bashLoop bash rest := by
  rcases h with h | h <;> simp [bashLoop, h]

/-- A candidate that completes with return code 0 but whose first output
line the version regex does not match is skipped, with nothing printed. -/
theorem bashLoop_skip_unparsable (bash : String → BashOutcome) (p : String)
    (rest : List String) (out : String) (h : bash p = BashOutcome.completed 0 out)
    (hparse : searchVersion (firstLine out) = none) :
    bashLoop bash (p :: rest) = bashLoop bash rest := by
  simp [bashLoop, h, hparse]

/-- A candidate that completes with return code 0 and parses to an
adequate version is returned immediately. -/
theorem bashLoop_found (bash : String → BashOutcome) (p : String) (rest : List String)
    (out : String) (major minor : Nat) (h : bash p = BashOutcome.completed 0 out)
    (hparse : searchVersion (firstLine out) = some (major, minor))
    (hok : versionAdequate major minor = true) :
    bashLoop bash (p :: rest) =
      (["✓ Bash " ++ toString major ++ "." ++ toString minor ++ " at " ++ p ++
          " - Supports parallel processing"],
        true, p, toString major ++ "." ++ toString minor) := by
  simp [bashLoop, h, hparse, hok]

/-- C4: the shell-version check classifies a parsed `(major, minor)` as
adequate iff `major > 4` or `major = 4 ∧ minor ≥ 3`; the version line of
a 4.2.46 bash parses to `(4, 2)` and is inadequate, that of a 5.1.8 bash
parses to `(5, 1)` and is adequate, and `check_bash_version` run against
such interpreters at `/bin/bash` classifies them accordingly. -/
theorem bash_version_threshold :
    (∀ major minor : Nat,
        versionAdequate major minor = true ↔ (major > 4 ∨ (major = 4 ∧ minor ≥ 3)))
  ∧ searchVersion (firstLine "GNU bash, version 4.2.46(2)-release (x86_64-redhat-linux-gnu)") =
      some (4, 2)
  ∧ versionAdequate 4 2 = false
  ∧ searchVersion (firstLine "GNU bash, version 5.1.8(1)-release (x86_64-apple-darwin20.3.0)") =
      some (5, 1)
  ∧ versionAdequate 5 1 = true
  ∧ check_bash_version bash42 =
      (["✗ Bash 4.2 at /bin/bash - Too old for parallel processing (need 4.3+)"],
        false, "/bin/bash", "4.2")
  ∧ check_bash_version bash51 =
      (["✓ Bash 5.1 at /bin/bash - Supports parallel processing"],
        true, "/bin/bash", "5.1") := by
  refine ⟨fun major minor => ?_, rfl, rfl, rfl, rfl, rfl, rfl⟩
  simp [versionAdequate]

/-- C7: `check_bash_version` probes the candidates in the fixed order
homebrew bash, `/usr/local/bin/bash`, `/bin/bash`; a timeout or missing
file skips only that candidate; the first adequate interpreter found is
returned; and when no candidate can be queried the result is
`(False, "/bin/bash", "unknown")`. -/
theorem check_bash_version_probe_order :
    (∀ bash, check_bash_version bash =
        bashLoop bash ["/opt/homebrew/bin/bash", "/usr/local/bin/bash", "/bin/bash"])
  ∧ (∀ bash p rest, bash p = BashOutcome.timeout →
        bashLoop bash (p :: rest) = bashLoop bash rest)
  ∧ (∀ bash p rest, bash p = BashOutcome.notFound →
        bashLoop bash (p :: rest) = bashLoop bash rest)
  ∧ (∀ bash p rest out major minor, bash p = BashOutcome.completed 0 out →
        searchVersion (firstLine out) = some (major, minor) →
        versionAdequate major minor = true →
        bashLoop bash (p :: rest) =
          (["✓ Bash " ++ toString major ++ "." ++ toString minor ++ " at " ++ p ++
              " - Supports parallel processing"],
            true, p, toString major ++ "." ++ toString minor))
  ∧ (∀ bash,
        (∀ p ∈ bash_paths, bash p = BashOutcome.timeout ∨ bash p = BashOutcome.notFound) →
        check_bash_version bash = ([], false, "/bin/bash", "unknown")) := by
  refine ⟨fun _ => rfl,
    fun bash p rest h => bashLoop_skip bash p rest (Or.inl h),
    fun bash p rest h => bashLoop_skip bash p rest (Or.inr h),
    fun bash p rest out major minor h hparse hok =>
      bashLoop_found bash p rest out major minor h hparse hok,
    fun bash hall => ?_⟩
  have h1 := hall "/opt/homebrew/bin/bash" (by simp [bash_paths])
  have h2 := hall "/usr/local/bin/bash" (by simp [bash_paths])
  have h3 := hall "/bin/bash" (by simp [bash_paths])
  unfold check_bash_version bash_paths
  rw [bashLoop_skip _ _ _ h1, bashLoop_skip _ _ _ h2, bashLoop_skip _ _ _ h3]
  rfl

/-- C7 witness: with every candidate timing out the fallback is
returned, and a 5.1 interpreter at `/bin/bash` is found and returned. -/
theorem check_bash_version_probe_order_witness :
    check_bash_version bashAllTimeout = ([], false, "/bin/bash", "unknown") ∧
    bashLoop bash51 ["/bin/bash"] =
      (["✓ Bash 5.1 at /bin/bash - Supports parallel processing"],
        true, "/bin/bash", "5.1") :=
  ⟨check_bash_version_probe_order.2.2.2.2 bashAllTimeout (fun _ _ => Or.inl rfl),
   check_bash_version_probe_order.2.2.2.1 bash51 "/bin/bash" []
     "GNU bash, version 5.1.8(1)-release (x86_64-apple-darwin20.3.0)" 5 1 rfl rfl rfl⟩

/-- C9: a candidate whose version query succeeds (return code 0) but
whose first output line the pattern `version <digits>.<digits>` does not
match is silently skipped — nothing is printed for it — and when every
candidate is skipped this way the function reports version `"unknown"`
rather than any unparsed output. -/
theorem bash_unparsable_line_skipped :
    (∀ bash p rest out, bash p = BashOutcome.completed 0 out →
        searchVersion (firstLine out) = none →
        bashLoop bash (p :: rest) = bashLoop bash rest)
  ∧ (∀ bash,
        (∀ p ∈ bash_paths, ∃ out, bash p = BashOutcome.completed 0 out ∧
          searchVersion (firstLine out) = none) →
        check_bash_version bash = ([], false, "/bin/bash", "unknown")) := by
  refine ⟨fun bash p rest out h hparse => bashLoop_skip_unparsable bash p rest out h hparse,
    fun bash hall => ?_⟩
  obtain ⟨o1, ho1, hp1⟩ := hall "/opt/homebrew/bin/bash" (by simp [bash_paths])
  obtain ⟨o2, ho2, hp2⟩ := hall "/usr/local/bin/bash" (by simp [bash_paths])
  obtain ⟨o3, ho3, hp3⟩ := hall "/bin/bash" (by simp [bash_paths])
  unfold check_bash_version bash_paths
  rw [bashLoop_skip_unparsable _ _ _ _ ho1 hp1, bashLoop_skip_unparsable _ _ _ _ ho2 hp2,
    bashLoop_skip_unparsable _ _ _ _ ho3 hp3]
  rfl

/-- C9 witness: every candidate answers `no version here`, which the
regex does not match, so the scan ends with no printed line and version
`"unknown"`. -/
theorem bash_unparsable_line_skipped_witness :
    check_bash_version bashNoParse = ([], false, "/bin/bash", "unknown") :=
  bash_unparsable_line_skipped.2 bashNoParse (fun _ _ => ⟨"no version here", rfl, rfl⟩)

/-- C5 counterexample: `check_package` does propagate an exception to
its caller when the import raises something other than `ImportError`
(here a `RuntimeError` from a broken package), so the claim that it
never propagates any exception is false. -/
theorem check_package_propagates_exception :
    check_package envRaising "numpy" "NumPy (required by EasyOCR)" =
      Except.error (PyExc.other "RuntimeError: boom") := rfl

/-- C5 as amended: `check_package` catches exactly `ImportError` — a
successful import reports availability and returns `True`, an
`ImportError` reports unavailability and returns `False`, and any other
exception raised while loading the package propagates to the caller. -/
theorem check_package_import_error_only (env : Env) (package_name description : String) :
    (env.importResult package_name = none →
        check_package env package_name description =
          Except.ok (["✓ " ++ package_name ++ " - " ++ description], true))
  ∧ (∀ m, env.importResult package_name = some (PyExc.importError m) →
        check_package env package_name description =
          Except.ok (["✗ " ++ package_name ++ " - " ++ description], false))
  ∧ (∀ m, env.importResult package_name = some (PyExc.valueError m) →
        check_package env package_name description = Except.error (PyExc.valueError m))
  ∧ (∀ m, env.importResult package_name = some (PyExc.other m) →
        check_package env package_name description = Except.error (PyExc.other m)) := by
  refine ⟨fun h => ?_, fun m h => ?_, fun m h => ?_, fun m h => ?_⟩ <;>
    simp [check_package, h]

/-- C5 witness: the three behaviours at concrete environments — a
caught `ImportError` for `fitz`, and a propagated `RuntimeError`. -/
theorem check_package_import_error_only_witness :
    envNoFitz.importResult "fitz" = some (PyExc.importError "No module named fitz") ∧
    check_package envNoFitz "fitz" "PyMuPDF for PDF processing" =
      Except.ok (["✗ fitz - PyMuPDF for PDF processing"], false) ∧
    check_package envRaising "astchunk" "AST-aware source code chunking" =
      Except.error (PyExc.other "RuntimeError: boom") :=
  ⟨rfl,
   (check_package_import_error_only envNoFitz "fitz" "PyMuPDF for PDF processing").2.1
     "No module named fitz" rfl,
   (check_package_import_error_only envRaising "astchunk" "AST-aware source code chunking").2.2.2
     "RuntimeError: boom" rfl⟩

/-- A list starting with itself-plus-suffix passes the prefix test. -/
theorem leadsWith_append_self : ∀ (s t : List Char), leadsWith s (s ++ t) = true := by
  intro s t
  induction s with
  | nil => rfl
  | cons a as ih => simp [leadsWith, ih]

/-- A pattern matching at the head is a substring. -/
theorem containsSeq_of_leadsWith (sub t : List Char) (h : leadsWith sub t = true) :
    containsSeq sub t = true := by
  cases t with
  | nil =>
    cases sub with
    | nil => rfl
    | cons a as => exact absurd h (by simp [leadsWith])
  | cons c cs => simp [containsSeq, h]

/-- Substring containment is preserved by prepending. -/
theorem containsSeq_append_left (sub t : List Char) :
    ∀ l : List Char, containsSeq sub t = true → containsSeq sub (l ++ t) = true := by
  intro l h
  induction l with
  | nil => simpa using h
  | cons c cs ih => simp [containsSeq, ih]

/-- A list occurring literally in the middle is a substring. -/
theorem containsSeq_middle (l sub r : List Char) :
    containsSeq sub (l ++ (sub ++ r)) = true :=
  containsSeq_append_left sub _ l (containsSeq_of_leadsWith sub _ (leadsWith_append_self sub r))

/-- C2: for every string outside the known set, `get_embedding_function`
raises a `ValueError` whose message contains the offending string and
all three valid model names. -/
theorem get_embedding_function_unknown_raises (lib : STLib) (model_name : String)
    (h1 : model_name ≠ "stella") (h2 : model_name ≠ "modernbert")
    (h3 : model_name ≠ "bge-large") :
    get_embedding_function lib model_name =
      Except.error (PyExc.valueError (unknownModelMsg model_name))
  ∧ containsSeq model_name.data (unknownModelMsg model_name).data = true
  ∧ containsSeq "stella".data (unknownModelMsg model_name).data = true
  ∧ containsSeq "modernbert".data (unknownModelMsg model_name).data = true
  ∧ containsSeq "bge-large".data (unknownModelMsg model_name).data = true := by
  refine ⟨?_, ?_, ?_, ?_, ?_⟩
  · simp [get_embedding_function, h1, h2, h3]
  · unfold unknownModelMsg
    rw [String.data_append, String.data_append, List.append_assoc]
    exact containsSeq_middle _ _ _
  · unfold unknownModelMsg
    rw [String.data_append, String.data_append, List.append_assoc]
    exact containsSeq_append_left _ _ _ (containsSeq_append_left _ _ _ (by decide))
  · unfold unknownModelMsg
    rw [String.data_append, String.data_append, List.append_assoc]
    exact containsSeq_append_left _ _ _ (containsSeq_append_left _ _ _ (by decide))
  · unfold unknownModelMsg
    rw [String.data_append, String.data_append, List.append_assoc]
    exact containsSeq_append_left _ _ _ (containsSeq_append_left _ _ _ (by decide))

/-- C2 witness: the unknown name `gpt-bogus` raises the `ValueError`
and its message contains `gpt-bogus`, `stella`, `modernbert` and
`bge-large`. -/
theorem get_embedding_function_unknown_raises_witness :
    ("gpt-bogus" : String) ≠ "stella" ∧
    (get_embedding_function stlibOK "gpt-bogus" =
        Except.error (PyExc.valueError (unknownModelMsg "gpt-bogus"))
      ∧ containsSeq "gpt-bogus".data (unknownModelMsg "gpt-bogus").data = true
      ∧ containsSeq "stella".data (unknownModelMsg "gpt-bogus").data = true
      ∧ containsSeq "modernbert".data (unknownModelMsg "gpt-bogus").data = true
      ∧ containsSeq "bge-large".data (unknownModelMsg "gpt-bogus").data = true) :=
  ⟨by decide,
   get_embedding_function_unknown_raises stlibOK "gpt-bogus" (by decide) (by decide) (by decide)⟩

/-- C3: for each known model name, and a library in which the three
model loads succeed, the factory returns an instance of the matching
wrapper class holding the configured model, and the returned object is
invocable on any list of strings, delegating to the model's `encode`. -/
theorem get_embedding_function_known_models (lib : STLib)
    (hst : lib.loadResult "dunzhang/stella_en_400M_v5" true = Except.ok ())
    (hmb : lib.loadResult "answerdotai/ModernBERT-large" true = Except.ok ())
    (hbge : lib.loadResult "BAAI/bge-large-en-v1.5" false = Except.ok ()) :
    get_embedding_function lib "stella" =
      Except.ok (EmbeddingFunctionObj.stellaFn ⟨⟨"dunzhang/stella_en_400M_v5", true⟩⟩)
  ∧ get_embedding_function lib "modernbert" =
      Except.ok (EmbeddingFunctionObj.modernbertFn ⟨⟨"answerdotai/ModernBERT-large", true⟩⟩)
  ∧ get_embedding_function lib "bge-large" =
      Except.ok (EmbeddingFunctionObj.bgeFn ⟨⟨"BAAI/bge-large-en-v1.5", false⟩⟩)
  ∧ (∀ input, EmbeddingFunctionObj.call lib
        (EmbeddingFunctionObj.stellaFn ⟨⟨"dunzhang/stella_en_400M_v5", true⟩⟩) input =
      lib.encode ⟨"dunzhang/stella_en_400M_v5", true⟩ input)
  ∧ (∀ input, EmbeddingFunctionObj.call lib
        (EmbeddingFunctionObj.modernbertFn ⟨⟨"answerdotai/ModernBERT-large", true⟩⟩) input =
      lib.encode ⟨"answerdotai/ModernBERT-large", true⟩ input)
  ∧ (∀ input, EmbeddingFunctionObj.call lib
        (EmbeddingFunctionObj.bgeFn ⟨⟨"BAAI/bge-large-en-v1.5", false⟩⟩) input =
      lib.encode ⟨"BAAI/bge-large-en-v1.5", false⟩ input) := by
  refine ⟨?_, ?_, ?_, fun _ => rfl, fun _ => rfl, fun _ => rfl⟩
  · simp [get_embedding_function, StellaEmbeddingFunction.init, SentenceTransformer.new, hst, Except.map]
  · simp [get_embedding_function, ModernBERTEmbeddingFunction.init, SentenceTransformer.new, hmb, Except.map]
  · simp [get_embedding_function, BGEEmbeddingFunction.init, SentenceTransformer.new, hbge, Except.map]

/-- C3 witness: with the all-loads-succeed library, the three known
names yield the three wrapper instances. -/
theorem get_embedding_function_known_models_witness :
    stlibOK.loadResult "dunzhang/stella_en_400M_v5" true = Except.ok () ∧
    get_embedding_function stlibOK "stella" =
      Except.ok (EmbeddingFunctionObj.stellaFn ⟨⟨"dunzhang/stella_en_400M_v5", true⟩⟩) ∧
    get_embedding_function stlibOK "modernbert" =
      Except.ok (EmbeddingFunctionObj.modernbertFn ⟨⟨"answerdotai/ModernBERT-large", true⟩⟩) ∧
    get_embedding_function stlibOK "bge-large" =
      Except.ok (EmbeddingFunctionObj.bgeFn ⟨⟨"BAAI/bge-large-en-v1.5", false⟩⟩) :=
  ⟨rfl,
   (get_embedding_function_known_models stlibOK rfl rfl rfl).1,
   (get_embedding_function_known_models stlibOK rfl rfl rfl).2.1,
   (get_embedding_function_known_models stlibOK rfl rfl rfl).2.2.1⟩

/-- C6: whenever the underlying `encode` preserves batch length,
invoking an embedding-function object on a list of documents returns a
list of vectors of the same length; in particular the empty input list
yields the empty list. -/
theorem embedding_call_preserves_length (lib : STLib) (f : EmbeddingFunctionObj)
    (input : List String)
    (henc : ∀ m xs, (lib.encode m xs).length = xs.length) :
    (EmbeddingFunctionObj.call lib f input).length = input.length
  ∧ EmbeddingFunctionObj.call lib f [] = [] := by
  constructor
  · cases f <;> exact henc _ _
  · cases f <;> exact List.length_eq_zero.mp (henc _ [])

/-- C6 witness: with the concrete library whose `encode` maps each
document to a fixed vector, a two-document batch yields two vectors and
the empty batch yields the empty list. -/
theorem embedding_call_preserves_length_witness :
    (∀ m xs, (stlibOK.encode m xs).length = xs.length) ∧
    (EmbeddingFunctionObj.call stlibOK
        (EmbeddingFunctionObj.stellaFn ⟨⟨"dunzhang/stella_en_400M_v5", true⟩⟩)
        ["a", "b"]).length = 2 ∧
    EmbeddingFunctionObj.call stlibOK
      (EmbeddingFunctionObj.stellaFn ⟨⟨"dunzhang/stella_en_400M_v5", true⟩⟩) [] = [] := by
  have henc : ∀ m xs, (stlibOK.encode m xs).length = xs.length := fun m xs => by
    simp [stlibOK]
  exact ⟨henc,
    (embedding_call_preserves_length stlibOK
      (EmbeddingFunctionObj.stellaFn ⟨⟨"dunzhang/stella_en_400M_v5", true⟩⟩) ["a", "b"] henc).1,
    (embedding_call_preserves_length stlibOK
      (EmbeddingFunctionObj.stellaFn ⟨⟨"dunzhang/stella_en_400M_v5", true⟩⟩) ["a", "b"] henc).2⟩

/-- C8: the factory does not catch model-loading errors — whatever
error the constructor's model load raises propagates unmodified to the
factory's caller, for each of the three known names. -/
theorem get_embedding_function_load_failure_propagates (lib : STLib) (e : PyExc) :
    (lib.loadResult "dunzhang/stella_en_400M_v5" true = Except.error e →
        get_embedding_function lib "stella" = Except.error e)
  ∧ (lib.loadResult "answerdotai/ModernBERT-large" true = Except.error e →
        get_embedding_function lib "modernbert" = Except.error e)
  ∧ (lib.loadResult "BAAI/bge-large-en-v1.5" false = Except.error e →
        get_embedding_function lib "bge-large" = Except.error e) := by
  refine ⟨fun h => ?_, fun h => ?_, fun h => ?_⟩
  · simp [get_embedding_function, StellaEmbeddingFunction.init, SentenceTransformer.new, h, Except.map]
  · simp [get_embedding_function, ModernBERTEmbeddingFunction.init, SentenceTransformer.new, h, Except.map]
  · simp [get_embedding_function, BGEEmbeddingFunction.init, SentenceTransformer.new, h, Except.map]

/-- C8 witness: with a library whose loads all fail with an HTTP hub
error, the factory surfaces exactly that error for all three names. -/
theorem get_embedding_function_load_failure_propagates_witness :
    stlibFail.loadResult "dunzhang/stella_en_400M_v5" true =
      Except.error (PyExc.other "HTTPError: 404") ∧
    get_embedding_function stlibFail "stella" = Except.error (PyExc.other "HTTPError: 404") ∧
    get_embedding_function stlibFail "modernbert" = Except.error (PyExc.other "HTTPError: 404") ∧
    get_embedding_function stlibFail "bge-large" = Except.error (PyExc.other "HTTPError: 404") :=
  ⟨rfl,
   (get_embedding_function_load_failure_propagates stlibFail (PyExc.other "HTTPError: 404")).1 rfl,
   (get_embedding_function_load_failure_propagates stlibFail (PyExc.other "HTTPError: 404")).2.1 rfl,
   (get_embedding_function_load_failure_propagates stlibFail (PyExc.other "HTTPError: 404")).2.2 rfl⟩

end ChromaEmbedded
